import Mathlib

/-!
Shallow embedding of `src/app.py` (cinego movie searcher).

The program downloads a numeric range of XML sitemaps, extracts the
`url/loc` entries of each into a flat line-oriented index file, and
answers substring searches over the path component of each indexed URL.

Modelling conventions:
* A sitemap file on disk is represented by its parse outcome: either
  `SitemapDoc.malformed` (bytes `xml.etree.ElementTree` rejects with a
  `ParseError`) or `SitemapDoc.parsed root` for a well-formed document
  with element tree `root`.  Element text is `Option String`, because
  `ElementTree` reports the text of an empty element such as `<loc/>`
  as Python `None`.
* The filesystem is a record `FS`: one slot per sitemap number plus the
  contents of `url_index.txt` (`none` when the file does not exist).
* The network is a function `attempts : Nat → Nat → Option SitemapDoc`
  giving, for sitemap number `i` and retry attempt `k`, the document a
  successful `session.get` would store, or `none` for a
  `requests.RequestException`.
* Functions that can raise an uncaught Python exception return
  `Option`/`none` for the raising outcome.
* Python `str` values are Lean `String`/`List Char`; `str.lower()` is
  modelled on the ASCII letters (the only ones the repository's data
  uses).
-/

namespace Cinego

/-! ### Configuration constants (`src/app.py` lines 11-18) -/

/-- `SITEMAP_RANGE = range(1, 62)`: the sitemap numbers 1..61 in
ascending order.  The builder functions below take the range as an
explicit parameter (mirroring the spec's "configured range") and the
program instantiates it with this list. -/
def SITEMAP_RANGE : List Nat := List.range' 1 61

/-- `MAX_ATTEMPTS = 3`: retry attempts per sitemap in `download_sitemap`. -/
def MAX_ATTEMPTS : Nat := 3

/-! ### XML documents and `extract_urls` (`src/app.py` lines 64-76) -/

/-- An XML element: tag (in `ElementTree`'s `\x7bnamespace\x7dlocal`
qualified form), its text (`none` for an element with no text, as for
`<loc/>`), and its direct children in document order. -/
inductive XmlTree : Type where
  | node : String → Option String → List XmlTree → XmlTree

/-- The element's qualified tag. -/
def XmlTree.tag : XmlTree → String
  | .node t _ _ => t

/-- The element's text (`None` in Python for an empty element). -/
def XmlTree.text : XmlTree → Option String
  | .node _ s _ => s

/-- The element's direct children in document order. -/
def XmlTree.children : XmlTree → List XmlTree
  | .node _ _ cs => cs

/-- A sitemap file's contents, abstracted to its XML parse outcome. -/
inductive SitemapDoc : Type where
  | malformed : SitemapDoc
  | parsed : XmlTree → SitemapDoc

/-- The sitemap namespace (`src/app.py` line 70). -/
def sitemapNS : String := "http://www.sitemaps.org/schemas/sitemap/0.9"

/-- `ElementTree` stores a namespaced tag as `\x7buri\x7dlocal`. -/
def nsTag (t : String) : String := "\x7b" ++ sitemapNS ++ "\x7d" ++ t

/-- `root.findall('ns:url/ns:loc', namespace)`: every `loc` child of
every `url` child of the root, in document order. -/
def findall_url_loc (root : XmlTree) : List XmlTree :=
  (root.children.filter (fun c => c.tag = nsTag "url")).flatMap
    (fun u => u.children.filter (fun c => c.tag = nsTag "loc"))

/-- `extract_urls` (lines 64-76): a `ParseError` is caught and yields
`[]`; otherwise the text of every `url/loc` element is collected, in
document order.  An entry is `none` when the `loc` element has no text
(Python appends `None` to the list). -/
def extract_urls : SitemapDoc → List (Option String)
  | .malformed => []
  | .parsed root => (findall_url_loc root).map XmlTree.text

/-- Extraction from a file slot.  Every caller in `build_url_index`
guards on the file's existence (`os.path.exists` or the truthiness of
`download_sitemap`'s result), so the `none` case is unreachable in the
program; it is given the value `[]` here. -/
def extractFile : Option SitemapDoc → List (Option String)
  | some d => extract_urls d
  | none => []

/-! ### Filesystem state -/

/-- The local filesystem as the program sees it: the sitemap file slot
for each number (`sitemaps/sitemap-movie-<i>.xml`, `none` = absent) and
the contents of `url_index.txt` (`none` = absent). -/
structure FS : Type where
  sitemaps : Nat → Option SitemapDoc
  indexFile : Option String

/-- Writing sitemap number `i`'s file (the `open(file_path, 'w')` in
`download_sitemap`). -/
def FS.writeSitemap (fs : FS) (i : Nat) (d : SitemapDoc) : FS :=
  { fs with sitemaps := fun j => if j = i then some d else fs.sitemaps j }

/-- `are_all_sitemaps_downloaded` (lines 78-84): every file of the
range exists on disk. -/
def are_all_sitemaps_downloaded (rng : List Nat) (fs : FS) : Bool :=
  rng.all (fun i => (fs.sitemaps i).isSome)

/-! ### `download_sitemap` (`src/app.py` lines 43-62) -/

/-- The retry loop of `download_sitemap`: attempts `k, k+1, ...` with
`fuel` attempts remaining; the first successful response's document is
the result, `none` when every attempt raises `RequestException`. -/
def downloadResult (attempt : Nat → Option SitemapDoc) : Nat → Nat → Option SitemapDoc
  | 0, _ => none
  | fuel + 1, k =>
    match attempt k with
    | some d => some d
    | none => downloadResult attempt fuel (k + 1)

/-- `download_sitemap(i, session)`: on the first successful attempt the
response is written verbatim to sitemap `i`'s file and the file path
(modelled by the number `i`) is returned; after `MAX_ATTEMPTS` failures
it returns `None` and writes nothing. -/
def download_sitemap (attempt : Nat → Option SitemapDoc) (i : Nat) (fs : FS) :
    FS × Option Nat :=
  match downloadResult attempt MAX_ATTEMPTS 0 with
  | some d => (fs.writeSitemap i d, some i)
  | none => (fs, none)

/-! ### Index writing -/

/-- Writing the collected URLs, one per line (`f.write(url + '\n')`):
`none` models the `TypeError` raised when an entry is Python `None`. -/
def writeLines : List (Option String) → Option String
  | [] => some ""
  | none :: _ => none
  | some u :: rest => (writeLines rest).map (fun s => u ++ "\n" ++ s)

/-- The contents of an index of `urls`: each URL followed by a newline. -/
def joinLines (urls : List String) : String :=
  urls.foldr (fun u s => u ++ "\n" ++ s) ""

/-! ### `build_url_index` (`src/app.py` lines 86-126) -/

/-- The download-and-extract loop (lines 112-119) over the remaining
range.  Returns (filesystem after the loop, accumulated `all_urls`,
number of `download_sitemap` invocations — each of which performs at
least one network request). -/
def buildLoop (attempts : Nat → Nat → Option SitemapDoc) :
    List Nat → FS → FS × List (Option String) × Nat
  | [], fs => (fs, [], 0)
  | i :: rest, fs =>
    match fs.sitemaps i with
    | some d =>
      let r := buildLoop attempts rest fs
      (r.1, extract_urls d ++ r.2.1, r.2.2)
    | none =>
      let dl := download_sitemap (attempts i) i fs
      match dl.2 with
      | some p =>
        let urls := extractFile (dl.1.sitemaps p)
        let r := buildLoop attempts rest dl.1
        (r.1, urls ++ r.2.1, r.2.2 + 1)
      | none =>
        let r := buildLoop attempts rest dl.1
        (r.1, r.2.1, r.2.2 + 1)

/-- `build_url_index` (lines 86-126).  Result: `some (fs', calls)` with
the filesystem after the run and the number of network downloads
performed, or `none` when the run raises (a `None` URL reaching the
index write).  Branches, as in the source: when every sitemap of the
range is on disk, the index is rebuilt from disk only if absent;
otherwise missing sitemaps are downloaded and the index is written iff
at least one URL was collected. -/
def build_url_index (attempts : Nat → Nat → Option SitemapDoc) (rng : List Nat)
    (fs : FS) : Option (FS × Nat) :=
  if are_all_sitemaps_downloaded rng fs then
    match fs.indexFile with
    | none =>
      let all_urls := (rng.map (fun i => extractFile (fs.sitemaps i))).flatten
      (writeLines all_urls).map (fun content => ({ fs with indexFile := some content }, 0))
    | some _ => some (fs, 0)
  else
    let r := buildLoop attempts rng fs
    if r.2.1.isEmpty then some (r.1, r.2.2)
    else (writeLines r.2.1).map (fun content => ({ r.1 with indexFile := some content }, r.2.2))

/-! ### Query normalization (`src/app.py` lines 128-130) -/

/-- Python's `str` whitespace class (`\s` of `re`, ASCII part): space,
tab, newline, carriage return, vertical tab, form feed. -/
def pyIsSpace (c : Char) : Bool :=
  c = ' ' || c = '\t' || c = '\n' || c = '\r' || c = Char.ofNat 11 || c = Char.ofNat 12

/-- Python `str.strip()`: drop leading and trailing whitespace. -/
def pyStrip (l : List Char) : List Char :=
  ((l.dropWhile pyIsSpace).reverse.dropWhile pyIsSpace).reverse

/-- Python `str.lower()` on the ASCII letters: `A`-`Z` map to
`a`-`z`, every other character is unchanged. -/
def pyToLower (c : Char) : Char :=
  if 65 ≤ c.toNat ∧ c.toNat ≤ 90 then Char.ofNat (c.toNat + 32) else c

/-- `re.sub(r'\s+', '-', s)`: each maximal run of whitespace becomes a
single hyphen.  The flag records whether the previous character was
part of a whitespace run already replaced. -/
def collapseWsAux : Bool → List Char → List Char
  | _, [] => []
  | inRun, c :: rest =>
    if pyIsSpace c then
      if inRun then collapseWsAux true rest
      else '-' :: collapseWsAux true rest
    else c :: collapseWsAux false rest

/-- `normalize_movie_name` (lines 128-130):
`re.sub(r'\s+', '-', query.strip().lower())`. -/
def normalize_movie_name (query : String) : String :=
  ⟨collapseWsAux false ((pyStrip query.data).map pyToLower)⟩

/-! ### URL path extraction (`urllib.parse.urlparse(url).path`) -/

/-- The prefix of `l` before its first `:`, and the remainder after it,
when a `:` occurs. -/
def splitFirstColon : List Char → Option (List Char × List Char)
  | [] => none
  | c :: rest =>
    if c = ':' then some ([], rest)
    else (splitFirstColon rest).map (fun p => (c :: p.1, p.2))

/-- The characters allowed after the first in a URL scheme. -/
def isSchemeChar (c : Char) : Bool :=
  c.isAlpha || c.isDigit || c = '+' || c = '-' || c = '.'

/-- `urlsplit`'s scheme step: when the text before the first `:` is a
valid scheme (nonempty, leading ASCII letter, scheme characters), drop
it together with the `:`; otherwise keep the string unchanged. -/
def splitScheme (l : List Char) : List Char :=
  match splitFirstColon l with
  | some (pre, rest) =>
    match pre with
    | [] => l
    | c0 :: cs => if c0.isAlpha && cs.all isSchemeChar then rest else l
  | none => l

/-- `urlsplit`'s netloc step: after a leading `//`, the authority runs
to the first `/`, `?` or `#`; the path starts there. -/
def dropNetloc : List Char → List Char
  | '/' :: '/' :: rest => rest.dropWhile (fun c => !(c = '/' || c = '?' || c = '#'))
  | l => l

/-- `urlparse(url).path`: strip the scheme and the authority, then cut
at the query (`?`) or fragment (`#`) delimiter. -/
def urlparse_path (url : String) : List Char :=
  (dropNetloc (splitScheme url.data)).takeWhile (fun c => !(c = '?' || c = '#'))

/-! ### `search_urls` (`src/app.py` lines 132-153) -/

/-- `l1` is a prefix of `l2` (Boolean). -/
def isPrefixL : List Char → List Char → Bool
  | [], _ => true
  | _ :: _, [] => false
  | a :: as, b :: bs => a = b && isPrefixL as bs

/-- Python's `needle in hay` substring containment on strings. -/
def isSubstrL (needle : List Char) : List Char → Bool
  | [] => isPrefixL needle []
  | c :: rest => isPrefixL needle (c :: rest) || isSubstrL needle rest

/-- Iterating a text file yields each line with its trailing newline
kept (a final line without a newline is yielded as-is). -/
def pyLinesAux (cur : List Char) : List Char → List (List Char)
  | [] => if cur.isEmpty then [] else [cur.reverse]
  | c :: rest =>
    if c = '\n' then (cur.reverse ++ ['\n']) :: pyLinesAux [] rest
    else pyLinesAux (c :: cur) rest

/-- The lines of a file's contents, as Python's file iteration yields
them. -/
def pyLines (l : List Char) : List (List Char) := pyLinesAux [] l

/-- One line of the index, tested by `search_urls`'s loop body: the
line is stripped, its URL's path component is lowercased, and the URL
is kept iff the normalized token occurs in the path as a substring. -/
def searchLineStep (normalized : String) (line : List Char) : Option String :=
  let url : String := ⟨pyStrip line⟩
  let path := (urlparse_path url).map pyToLower
  if isSubstrL normalized.data path then some url else none

/-- `search_urls` (lines 132-153).  The first component records
whether the function attempted to open the index file; the second is
the returned list of matches.  `if not movie_name` short-circuits only
the empty string (a whitespace-only string is truthy in Python); a
missing index file (`FileNotFoundError`) is caught and yields `[]`. -/
def search_urls (indexFile : Option String) (movie_name : String) :
    Bool × List String :=
  if movie_name = "" then (false, [])
  else
    let normalized := normalize_movie_name movie_name
    match indexFile with
    | none => (true, [])
    | some content => (true, (pyLines content.data).filterMap (searchLineStep normalized))

/-! ### Concrete documents and filesystems used by the witnesses -/

/-- A well-formed sitemap with the single URL `https://cinego.tv/movie/a`. -/
def docA : SitemapDoc :=
  .parsed (.node (nsTag "urlset") none
    [.node (nsTag "url") none [.node (nsTag "loc") (some "https://cinego.tv/movie/a") []]])

/-- A well-formed sitemap with the single URL `https://cinego.tv/movie/b`. -/
def docB : SitemapDoc :=
  .parsed (.node (nsTag "urlset") none
    [.node (nsTag "url") none [.node (nsTag "loc") (some "https://cinego.tv/movie/b") []]])

/-- A well-formed sitemap whose single `loc` element is empty
(`<loc/>`): its text is Python `None`. -/
def docEmptyLoc : SitemapDoc :=
  .parsed (.node (nsTag "urlset") none
    [.node (nsTag "url") none [.node (nsTag "loc") none []]])

/-- An empty filesystem: no sitemaps, no index file. -/
def fsEmpty : FS := ⟨fun _ => none, none⟩

/-- Sitemaps 1 and 2 on disk (`docA`, `docB`), no index file. -/
def fsAB : FS :=
  ⟨fun i => if i = 1 then some docA else if i = 2 then some docB else none, none⟩

/-- Sitemap 1 malformed, sitemap 2 well-formed, no index file. -/
def fsMB : FS :=
  ⟨fun i => if i = 1 then some SitemapDoc.malformed else
    if i = 2 then some docB else none, none⟩

/-- Sitemap 1 with an empty `<loc/>`, no index file. -/
def fsEmptyLoc : FS := ⟨fun i => if i = 1 then some docEmptyLoc else none, none⟩

/-- An attempt function that always fails (`RequestException` every time). -/
def failAttempts : Nat → Nat → Option SitemapDoc := fun _ _ => none

/-- An attempt function that always succeeds with `docA`. -/
def goodAttempts : Nat → Nat → Option SitemapDoc := fun _ _ => some docA

/-- A per-attempt function succeeding on the first attempt only. -/
def firstAttemptA : Nat → Option SitemapDoc :=
  fun k => if k = 0 then some docA else none

/-! ### Helper lemmas about index writing -/

/-- Writing a list of genuine strings succeeds and produces one URL per
line. -/
theorem writeLines_map_some (urls : List String) :
    writeLines (urls.map some) = some (joinLines urls) := by
  induction urls with
  | nil => rfl
  | cons u us ih => simp [writeLines, joinLines, ih]

/-- A successful index write means every entry was a string and the
contents are the URLs one per line. -/
theorem writeLines_eq_some (l : List (Option String)) (s : String)
    (h : writeLines l = some s) :
    ∃ urls : List String, l = urls.map some ∧ s = joinLines urls := by
  induction l generalizing s with
  | nil =>
    refine ⟨[], rfl, ?_⟩
    simpa [writeLines, joinLines] using h.symm
  | cons x xs ih =>
    cases x with
    | none => simp [writeLines] at h
    | some u =>
      simp only [writeLines] at h
      cases hx : writeLines xs with
      | none => rw [hx] at h; simp at h
      | some s2 =>
        rw [hx] at h
        simp only [Option.map_some', Option.some.injEq] at h
        obtain ⟨urls, h1, h2⟩ := ih s2 hx
        refine ⟨u :: urls, by simp [h1], ?_⟩
        simp [joinLines, ← h, h2]

/-- The write succeeds exactly when every collected entry is a string
(no `loc` element of any parsed sitemap was empty). -/
theorem writeLines_isSome_iff (l : List (Option String)) :
    (writeLines l).isSome = true ↔ ∀ o ∈ l, o.isSome = true := by
  induction l with
  | nil => simp [writeLines]
  | cons x xs ih =>
    cases x with
    | none => simp [writeLines]
    | some u => simp [writeLines, ih]

/-! ### Helper lemmas about normalization -/

/-- `Char.ofNat` of a valid codepoint decodes back to it. -/
theorem toNat_ofNat_valid (n : Nat) (h : n.isValidChar) :
    (Char.ofNat n).toNat = n := by
  simp [Char.ofNat, h, Char.ofNatAux, Char.toNat, UInt32.toNat, BitVec.ofNatLt]

/-- Lowercasing is idempotent. -/
theorem pyToLower_idem (c : Char) : pyToLower (pyToLower c) = pyToLower c := by
  unfold pyToLower
  by_cases h : 65 ≤ c.toNat ∧ c.toNat ≤ 90
  · rw [if_pos h]
    have hv : (c.toNat + 32).isValidChar := by
      constructor
      omega
    have := toNat_ofNat_valid (c.toNat + 32) hv
    rw [if_neg (by omega)]
  · rw [if_neg h, if_neg h]

/-- Unfolding: a whitespace character inside a run is dropped. -/
theorem collapseWsAux_cons_space_true (x : Char) (xs : List Char)
    (hx : pyIsSpace x = true) :
    collapseWsAux true (x :: xs) = collapseWsAux true xs := by
  simp [collapseWsAux, hx]

/-- Unfolding: a whitespace character starting a run emits a hyphen. -/
theorem collapseWsAux_cons_space_false (x : Char) (xs : List Char)
    (hx : pyIsSpace x = true) :
    collapseWsAux false (x :: xs) = '-' :: collapseWsAux true xs := by
  simp [collapseWsAux, hx]

/-- Unfolding: a non-whitespace character is kept. -/
theorem collapseWsAux_cons_not_space (b : Bool) (x : Char) (xs : List Char)
    (hx : pyIsSpace x = false) :
    collapseWsAux b (x :: xs) = x :: collapseWsAux false xs := by
  simp [collapseWsAux, hx]

/-- Whitespace collapsing emits no whitespace characters. -/
theorem collapseWsAux_not_space (b : Bool) (l : List Char) :
    ∀ c ∈ collapseWsAux b l, pyIsSpace c = false := by
  induction l generalizing b with
  | nil => intro c hc; simp [collapseWsAux] at hc
  | cons x xs ih =>
    intro c hc
    cases hx : pyIsSpace x with
    | true =>
      cases b with
      | true =>
        rw [collapseWsAux_cons_space_true x xs hx] at hc
        exact ih true c hc
      | false =>
        rw [collapseWsAux_cons_space_false x xs hx, List.mem_cons] at hc
        rcases hc with h1 | h2
        · subst h1; decide
        · exact ih true c h2
    | false =>
      rw [collapseWsAux_cons_not_space b x xs hx, List.mem_cons] at hc
      rcases hc with h1 | h2
      · subst h1; exact hx
      · exact ih false c h2

/-- Every character the collapsing emits is a hyphen or comes from the
input. -/
theorem collapseWsAux_mem (b : Bool) (l : List Char) :
    ∀ c ∈ collapseWsAux b l, c = '-' ∨ c ∈ l := by
  induction l generalizing b with
  | nil => intro c hc; simp [collapseWsAux] at hc
  | cons x xs ih =>
    intro c hc
    cases hx : pyIsSpace x with
    | true =>
      cases b with
      | true =>
        rw [collapseWsAux_cons_space_true x xs hx] at hc
        rcases ih true c hc with h | h
        · exact Or.inl h
        · exact Or.inr (List.mem_cons_of_mem _ h)
      | false =>
        rw [collapseWsAux_cons_space_false x xs hx, List.mem_cons] at hc
        rcases hc with h1 | h2
        · exact Or.inl h1
        · rcases ih true c h2 with h | h
          · exact Or.inl h
          · exact Or.inr (List.mem_cons_of_mem _ h)
    | false =>
      rw [collapseWsAux_cons_not_space b x xs hx, List.mem_cons] at hc
      rcases hc with h1 | h2
      · exact Or.inr (by simp [h1])
      · rcases ih false c h2 with h | h
        · exact Or.inl h
        · exact Or.inr (List.mem_cons_of_mem _ h)

/-- Collapsing a whitespace-free list is the identity. -/
theorem collapseWsAux_of_not_space (b : Bool) (l : List Char)
    (h : ∀ c ∈ l, pyIsSpace c = false) : collapseWsAux b l = l := by
  induction l generalizing b with
  | nil => rfl
  | cons x xs ih =>
    have hx : pyIsSpace x = false := h x (by simp)
    simp only [collapseWsAux, hx, Bool.false_eq_true, if_false]
    rw [ih false (fun c hc => h c (List.mem_cons_of_mem _ hc))]

/-- `dropWhile` is the identity when no element satisfies the
predicate. -/
theorem dropWhile_eq_self_of {α : Type} (p : α → Bool) (l : List α)
    (h : ∀ c ∈ l, p c = false) : l.dropWhile p = l := by
  cases l with
  | nil => rfl
  | cons x xs => simp [List.dropWhile, h x (by simp)]

/-- Stripping a whitespace-free list is the identity. -/
theorem pyStrip_of_not_space (l : List Char)
    (h : ∀ c ∈ l, pyIsSpace c = false) : pyStrip l = l := by
  unfold pyStrip
  rw [dropWhile_eq_self_of _ _ h, dropWhile_eq_self_of, List.reverse_reverse]
  intro c hc
  exact h c (List.mem_reverse.mp hc)

/-- `map` is the identity when `f` fixes every element. -/
theorem map_eq_self_of {α : Type} (f : α → α) (l : List α)
    (h : ∀ c ∈ l, f c = c) : l.map f = l := by
  induction l with
  | nil => rfl
  | cons x xs ih =>
    simp only [List.map_cons, h x (by simp)]
    rw [ih (fun c hc => h c (List.mem_cons_of_mem _ hc))]

/-- Normalization is idempotent. -/
theorem normalize_movie_name_idem (q : String) :
    normalize_movie_name (normalize_movie_name q) = normalize_movie_name q := by
  have h1 : ∀ c ∈ collapseWsAux false ((pyStrip q.data).map pyToLower),
      pyIsSpace c = false := collapseWsAux_not_space _ _
  have h3 : (collapseWsAux false ((pyStrip q.data).map pyToLower)).map pyToLower
      = collapseWsAux false ((pyStrip q.data).map pyToLower) := by
    apply map_eq_self_of
    intro c hc
    rcases collapseWsAux_mem _ _ c hc with h | h
    · subst h; decide
    · rcases List.mem_map.mp h with ⟨a, _, rfl⟩
      exact pyToLower_idem a
  show String.mk (collapseWsAux false
      ((pyStrip (collapseWsAux false ((pyStrip q.data).map pyToLower))).map pyToLower))
    = String.mk (collapseWsAux false ((pyStrip q.data).map pyToLower))
  rw [pyStrip_of_not_space _ h1, h3, collapseWsAux_of_not_space _ _ h1]

/-! ### Claim theorems: normalization and search -/

/-- C4: query normalization is idempotent, and in particular
`normalize("The Vampire   Diaries")` and
`normalize("the-vampire-diaries")` both equal `"the-vampire-diaries"`
(trimming, lowercasing, whitespace runs collapsed to single hyphens). -/
theorem C4_normalize_idempotent :
    (∀ q : String, normalize_movie_name (normalize_movie_name q)
        = normalize_movie_name q) ∧
    normalize_movie_name "The Vampire   Diaries" = "the-vampire-diaries" ∧
    normalize_movie_name "the-vampire-diaries" = "the-vampire-diaries" :=
  ⟨normalize_movie_name_idem, by decide, by decide⟩

/-- C3 fails as stated: a whitespace-only query is truthy in Python, so
`search_urls(" ")` is not short-circuited: it opens the index file
(first component `true`) and, since the query normalizes to the empty
token which occurs in every path, returns every indexed URL. -/
theorem C3_counterexample :
    (search_urls (some "https://cinego.tv/movie/x\n") " ").1 = true ∧
    (search_urls (some "https://cinego.tv/movie/x\n") " ").2
      = ["https://cinego.tv/movie/x"] := by
  exact ⟨by decide, by decide⟩

/-- C3 amended: only the empty query string is short-circuited: search
then returns an empty sequence immediately, without attempting any I/O
on the index file.  (A whitespace-only query is not short-circuited.) -/
theorem C3_empty_query_short_circuits (indexFile : Option String) :
    search_urls indexFile "" = (false, []) := rfl

/-- C5: with the index line `https://cinego.tv/movie/the-vampire-diaries-s01e01`,
searching "The Vampire Diaries" returns that URL and searching
"Nonexistent Title" returns nothing; a token occurring only outside the
path (here the host name) does not match; and for every nonempty query
the result is exactly the file's lines, in file order, filtered by
substring containment of the normalized token in the lowercased URL
path. -/
theorem C5_search_containment :
    (search_urls (some "https://cinego.tv/movie/the-vampire-diaries-s01e01\n")
        "The Vampire Diaries").2
      = ["https://cinego.tv/movie/the-vampire-diaries-s01e01"] ∧
    (search_urls (some "https://cinego.tv/movie/the-vampire-diaries-s01e01\n")
        "Nonexistent Title").2 = [] ∧
    (search_urls (some "https://cinego.tv/movie/abc\n") "cinego").2 = [] ∧
    ∀ (content : String) (q : String), q ≠ "" →
      search_urls (some content) q
        = (true, (pyLines content.data).filterMap
            (searchLineStep (normalize_movie_name q))) := by
  refine ⟨by decide, by decide, by decide, ?_⟩
  intro content q hq
  unfold search_urls
  rw [if_neg hq]

/-- C5 witness: the filter rule instantiated at a concrete index and
query. -/
theorem C5_witness :
    search_urls (some "https://cinego.tv/movie/abc\n") "abc"
      = (true, (pyLines ("https://cinego.tv/movie/abc\n" : String).data).filterMap
          (searchLineStep (normalize_movie_name "abc"))) :=
  C5_search_containment.2.2.2 "https://cinego.tv/movie/abc\n" "abc" (by decide)

/-- C8: searching when the index file is absent returns an empty
sequence (the `FileNotFoundError` is caught, so the call returns
normally rather than raising). -/
theorem C8_search_missing_index (q : String) : (search_urls none q).2 = [] := by
  unfold search_urls
  by_cases h : q = ""
  · rw [if_pos h]
  · rw [if_neg h]

/-- C10: an empty `url/loc` element extracts as a `None` entry, not a
URL string; writing an index containing such an entry raises (modelled
by `none`), as does the whole build on a range whose sitemaps include
one; and the index write succeeds exactly when every extracted entry is
a string, i.e. when every `loc` element of every parsed sitemap has
text. -/
theorem C10_empty_loc_crashes_write :
    extract_urls docEmptyLoc = [none] ∧
    writeLines [none] = none ∧
    build_url_index failAttempts [1] fsEmptyLoc = none ∧
    (∀ l : List (Option String),
      (writeLines l).isSome = true ↔ ∀ o ∈ l, o.isSome = true) :=
  ⟨rfl, rfl, rfl, writeLines_isSome_iff⟩

/-! ### Helper lemmas about downloading -/

/-- `download_sitemap` when some attempt succeeds: the fetched document
is written to sitemap `i`'s file and the path is returned. -/
theorem download_sitemap_of_some (attempt : Nat → Option SitemapDoc)
    (i : Nat) (fs : FS) (d : SitemapDoc)
    (h : downloadResult attempt MAX_ATTEMPTS 0 = some d) :
    download_sitemap attempt i fs = (fs.writeSitemap i d, some i) := by
  unfold download_sitemap
  rw [h]

/-- `download_sitemap` when every attempt fails: nothing is written and
`None` is returned. -/
theorem download_sitemap_of_none (attempt : Nat → Option SitemapDoc)
    (i : Nat) (fs : FS)
    (h : downloadResult attempt MAX_ATTEMPTS 0 = none) :
    download_sitemap attempt i fs = (fs, none) := by
  unfold download_sitemap
  rw [h]

/-- When every attempt in the window fails, the retry loop fails. -/
theorem downloadResult_of_all_fail (attempt : Nat → Option SitemapDoc)
    (fuel k0 : Nat) (h : ∀ k, k0 ≤ k → k < k0 + fuel → attempt k = none) :
    downloadResult attempt fuel k0 = none := by
  induction fuel generalizing k0 with
  | zero => rfl
  | succ n ih =>
    simp only [downloadResult]
    rw [h k0 (Nat.le_refl _) (by omega)]
    exact ih (k0 + 1) (fun k hk1 hk2 => h k (by omega) (by omega))

/-! ### Claim theorems: the index builder -/

/-- C1: for every configured range whose sitemap documents are all
present on disk and whose index file is absent, the build performs no
network download, succeeds, and the index file's content is the
concatenation of the URL sequences extracted from each document in
range order, one URL per line.  (`hurls` states that each extracted
entry is a genuine string; an empty `loc` would instead crash the
write, see C10.) -/
theorem C1_index_is_concatenation (attempts : Nat → Nat → Option SitemapDoc)
    (rng : List Nat) (fs : FS) (urls : List String)
    (hall : are_all_sitemaps_downloaded rng fs = true)
    (hidx : fs.indexFile = none)
    (hurls : (rng.map (fun i => extractFile (fs.sitemaps i))).flatten
      = urls.map some) :
    build_url_index attempts rng fs
      = some ({ fs with indexFile := some (joinLines urls) }, 0) := by
  unfold build_url_index
  rw [hall, hidx, if_pos rfl]
  simp only [hurls, writeLines_map_some, Option.map_some']

/-- The index contents of the witness below: both URLs, one per line. -/
def idxAB : String := "https://cinego.tv/movie/a\nhttps://cinego.tv/movie/b\n"

/-- C1 witness: a two-sitemap range rebuilt from disk. -/
theorem C1_witness :
    build_url_index failAttempts [1, 2] fsAB
      = some ({ fsAB with indexFile := some idxAB }, 0) :=
  C1_index_is_concatenation failAttempts [1, 2] fsAB
    ["https://cinego.tv/movie/a", "https://cinego.tv/movie/b"]
    (by decide) rfl rfl

/-- C6: a malformed document extracts to the empty sequence (the parse
error is caught, so extraction returns instead of raising into the
caller's loop), and when the build over a range containing a malformed
document succeeds, the URLs extracted from every document of the range
still appear among the written index's URLs. -/
theorem C6_malformed_doc_skipped (attempts : Nat → Nat → Option SitemapDoc)
    (rng : List Nat) (fs : FS) (k : Nat) (fs1 : FS) (c : Nat)
    (hmal : fs.sitemaps k = some SitemapDoc.malformed)
    (hall : are_all_sitemaps_downloaded rng fs = true)
    (hidx : fs.indexFile = none)
    (hbuild : build_url_index attempts rng fs = some (fs1, c)) :
    extract_urls SitemapDoc.malformed = [] ∧
    ∃ urls : List String,
      (rng.map (fun i => extractFile (fs.sitemaps i))).flatten = urls.map some ∧
      fs1.indexFile = some (joinLines urls) ∧
      ∀ i ∈ rng, ∀ u : String,
        some u ∈ extractFile (fs.sitemaps i) → u ∈ urls := by
  refine ⟨rfl, ?_⟩
  unfold build_url_index at hbuild
  rw [hall, hidx, if_pos rfl] at hbuild
  simp only [] at hbuild
  cases hw : writeLines ((rng.map (fun i => extractFile (fs.sitemaps i))).flatten) with
  | none =>
    rw [hw] at hbuild
    simp at hbuild
  | some s =>
    rw [hw] at hbuild
    simp only [Option.map_some', Option.some.injEq, Prod.mk.injEq] at hbuild
    obtain ⟨urls, h1, h2⟩ := writeLines_eq_some _ _ hw
    refine ⟨urls, h1, ?_, ?_⟩
    · rw [← hbuild.1, h2]
    · intro i hi u hu
      have hmem : some u ∈ (rng.map (fun j => extractFile (fs.sitemaps j))).flatten := by
        apply List.mem_flatten.mpr
        exact ⟨extractFile (fs.sitemaps i), List.mem_map.mpr ⟨i, hi, rfl⟩, hu⟩
      rw [h1] at hmem
      rcases List.mem_map.mp hmem with ⟨a, ha, hau⟩
      rwa [Option.some_inj.mp hau] at ha

/-- C6 witness: sitemap 1 malformed, sitemap 2 intact; the build still
indexes sitemap 2's URL. -/
theorem C6_witness :
    extract_urls SitemapDoc.malformed = [] ∧
    ∃ urls : List String,
      ([1, 2].map (fun i => extractFile (fsMB.sitemaps i))).flatten
        = urls.map some ∧
      ({ fsMB with indexFile := some "https://cinego.tv/movie/b\n" } : FS).indexFile
        = some (joinLines urls) ∧
      ∀ i ∈ [1, 2], ∀ u : String,
        some u ∈ extractFile (fsMB.sitemaps i) → u ∈ urls :=
  C6_malformed_doc_skipped failAttempts [1, 2] fsMB 1 _ 0 rfl (by decide) rfl rfl

/-- C7: when every attempt for a sitemap fails, the store returns the
absent marker `None` without raising and without writing, and the
builder's loop processes the remaining range unchanged, the failed
sitemap contributing no URLs — only one more download invocation. -/
theorem C7_failed_download_skipped (attempts : Nat → Nat → Option SitemapDoc)
    (fs : FS) (i : Nat) (rest : List Nat)
    (hfail : ∀ k, k < MAX_ATTEMPTS → attempts i k = none)
    (hmiss : fs.sitemaps i = none) :
    download_sitemap (attempts i) i fs = (fs, none) ∧
    buildLoop attempts (i :: rest) fs =
      ((buildLoop attempts rest fs).1, (buildLoop attempts rest fs).2.1,
        (buildLoop attempts rest fs).2.2 + 1) := by
  have hdr : downloadResult (attempts i) MAX_ATTEMPTS 0 = none :=
    downloadResult_of_all_fail _ _ _ (fun k _ hk => hfail k (by simpa using hk))
  have hdl := download_sitemap_of_none (attempts i) i fs hdr
  refine ⟨hdl, ?_⟩
  simp only [buildLoop, hmiss, hdl]

/-- C7 witness: sitemap 1 unreachable, the loop continues with
sitemap 2. -/
theorem C7_witness :
    download_sitemap (failAttempts 1) 1 fsEmpty = (fsEmpty, none) ∧
    buildLoop failAttempts (1 :: [2]) fsEmpty =
      ((buildLoop failAttempts [2] fsEmpty).1,
        (buildLoop failAttempts [2] fsEmpty).2.1,
        (buildLoop failAttempts [2] fsEmpty).2.2 + 1) :=
  C7_failed_download_skipped failAttempts fsEmpty 1 [2] (fun _ _ => rfl) rfl

/-- C9: on a successful fetch the store writes the fetched document
verbatim to sitemap `i`'s deterministic path, returns that path, and
touches nothing else on disk. -/
theorem C9_store_writes_verbatim (attempt : Nat → Option SitemapDoc)
    (d : SitemapDoc) (i : Nat) (fs : FS)
    (h : downloadResult attempt MAX_ATTEMPTS 0 = some d) :
    (download_sitemap attempt i fs).2 = some i ∧
    (download_sitemap attempt i fs).1.sitemaps i = some d ∧
    (∀ j, j ≠ i → (download_sitemap attempt i fs).1.sitemaps j = fs.sitemaps j) ∧
    (download_sitemap attempt i fs).1.indexFile = fs.indexFile := by
  rw [download_sitemap_of_some attempt i fs d h]
  refine ⟨rfl, ?_, ?_, rfl⟩
  · simp [FS.writeSitemap]
  · intro j hj
    simp [FS.writeSitemap, hj]

/-- C9 witness: a first-attempt success stores `docA` at sitemap 3 and
leaves slot 4 and the index file alone. -/
theorem C9_witness :
    (download_sitemap firstAttemptA 3 fsEmpty).2 = some 3 ∧
    (download_sitemap firstAttemptA 3 fsEmpty).1.sitemaps 3 = some docA ∧
    (download_sitemap firstAttemptA 3 fsEmpty).1.sitemaps 4 = fsEmpty.sitemaps 4 ∧
    (download_sitemap firstAttemptA 3 fsEmpty).1.indexFile = fsEmpty.indexFile :=
  have h := C9_store_writes_verbatim firstAttemptA docA 3 fsEmpty rfl
  ⟨h.1, h.2.1, h.2.2.1 4 (by decide), h.2.2.2⟩

/-! ### Helper lemmas about the builder's loop -/

/-- Loop unfolding: sitemap `i` already on disk. -/
theorem buildLoop_cons_present (attempts : Nat → Nat → Option SitemapDoc)
    (i : Nat) (rest : List Nat) (fs : FS) (d : SitemapDoc)
    (h : fs.sitemaps i = some d) :
    buildLoop attempts (i :: rest) fs =
      ((buildLoop attempts rest fs).1,
        extract_urls d ++ (buildLoop attempts rest fs).2.1,
        (buildLoop attempts rest fs).2.2) := by
  simp only [buildLoop, h]

/-- Loop unfolding: sitemap `i` missing and its download succeeds with
`d`. -/
theorem buildLoop_cons_dl_success (attempts : Nat → Nat → Option SitemapDoc)
    (i : Nat) (rest : List Nat) (fs : FS) (d : SitemapDoc)
    (h : fs.sitemaps i = none)
    (hd : downloadResult (attempts i) MAX_ATTEMPTS 0 = some d) :
    buildLoop attempts (i :: rest) fs =
      ((buildLoop attempts rest (fs.writeSitemap i d)).1,
        extract_urls d ++ (buildLoop attempts rest (fs.writeSitemap i d)).2.1,
        (buildLoop attempts rest (fs.writeSitemap i d)).2.2 + 1) := by
  simp [buildLoop, h, download_sitemap_of_some _ _ _ _ hd, FS.writeSitemap, extractFile]

/-- Loop unfolding: sitemap `i` missing and its download fails. -/
theorem buildLoop_cons_dl_fail (attempts : Nat → Nat → Option SitemapDoc)
    (i : Nat) (rest : List Nat) (fs : FS)
    (h : fs.sitemaps i = none)
    (hd : downloadResult (attempts i) MAX_ATTEMPTS 0 = none) :
    buildLoop attempts (i :: rest) fs =
      ((buildLoop attempts rest fs).1, (buildLoop attempts rest fs).2.1,
        (buildLoop attempts rest fs).2.2 + 1) := by
  simp only [buildLoop, h, download_sitemap_of_none _ _ _ hd]

/-- The loop never touches the index file. -/
theorem buildLoop_indexFile (attempts : Nat → Nat → Option SitemapDoc)
    (l : List Nat) (fs : FS) :
    (buildLoop attempts l fs).1.indexFile = fs.indexFile := by
  induction l generalizing fs with
  | nil => rfl
  | cons i rest ih =>
    cases hfi : fs.sitemaps i with
    | some d =>
      rw [buildLoop_cons_present attempts i rest fs d hfi]
      exact ih fs
    | none =>
      cases hdr : downloadResult (attempts i) MAX_ATTEMPTS 0 with
      | some d =>
        rw [buildLoop_cons_dl_success attempts i rest fs d hfi hdr]
        exact ih (fs.writeSitemap i d)
      | none =>
        rw [buildLoop_cons_dl_fail attempts i rest fs hfi hdr]
        exact ih fs

/-- The loop never deletes a sitemap file. -/
theorem buildLoop_sitemaps_mono (attempts : Nat → Nat → Option SitemapDoc)
    (l : List Nat) (fs : FS) (j : Nat)
    (h : (fs.sitemaps j).isSome = true) :
    ((buildLoop attempts l fs).1.sitemaps j).isSome = true := by
  induction l generalizing fs with
  | nil => exact h
  | cons i rest ih =>
    cases hfi : fs.sitemaps i with
    | some d =>
      rw [buildLoop_cons_present attempts i rest fs d hfi]
      exact ih fs h
    | none =>
      cases hdr : downloadResult (attempts i) MAX_ATTEMPTS 0 with
      | some d =>
        rw [buildLoop_cons_dl_success attempts i rest fs d hfi hdr]
        apply ih
        by_cases hji : j = i
        · subst hji
          simp [FS.writeSitemap]
        · simpa [FS.writeSitemap, hji] using h
      | none =>
        rw [buildLoop_cons_dl_fail attempts i rest fs hfi hdr]
        exact ih fs h

/-- When every download in the range would succeed, every sitemap of
the range is on disk after the loop. -/
theorem buildLoop_all_present (attempts : Nat → Nat → Option SitemapDoc)
    (l : List Nat) (fs : FS)
    (hf : ∀ i ∈ l, (downloadResult (attempts i) MAX_ATTEMPTS 0).isSome = true) :
    ∀ j ∈ l, ((buildLoop attempts l fs).1.sitemaps j).isSome = true := by
  induction l generalizing fs with
  | nil => intro j hj; cases hj
  | cons i rest ih =>
    intro j hj
    cases hfi : fs.sitemaps i with
    | some d =>
      rw [buildLoop_cons_present attempts i rest fs d hfi]
      rcases List.mem_cons.mp hj with rfl | hj2
      · exact buildLoop_sitemaps_mono attempts rest fs j (by simp [hfi])
      · exact ih fs (fun a ha => hf a (List.mem_cons_of_mem _ ha)) j hj2
    | none =>
      cases hdr : downloadResult (attempts i) MAX_ATTEMPTS 0 with
      | none =>
        exfalso
        have hbad := hf i (List.mem_cons_self i rest)
        rw [hdr] at hbad
        simp at hbad
      | some d =>
        rw [buildLoop_cons_dl_success attempts i rest fs d hfi hdr]
        rcases List.mem_cons.mp hj with rfl | hj2
        · exact buildLoop_sitemaps_mono attempts rest _ j (by simp [FS.writeSitemap])
        · exact ih _ (fun a ha => hf a (List.mem_cons_of_mem _ ha)) j hj2

/-! ### Claim theorems: idempotence of the builder -/

/-- C2 fails as stated: starting from an empty filesystem with an
unreachable remote (every attempt fails), the first run performs 61
downloads and changes nothing, so the second run — with no change in
remote content — performs 61 downloads again, not zero. -/
theorem C2_counterexample :
    ((build_url_index failAttempts SITEMAP_RANGE fsEmpty).bind
        (fun r => build_url_index failAttempts SITEMAP_RANGE r.1)).map Prod.snd
      = some 61 ∧ (61 : Nat) ≠ 0 :=
  ⟨rfl, by decide⟩

/-- C2 amended: provided every download in the range would succeed
(the remote is reachable and unchanged) and the first run returns
leaving an index file on disk, a second run in succession is a no-op:
it performs zero network calls and leaves the filesystem — including
the index file's bytes — identical. -/
theorem C2_second_run_noop (attempts : Nat → Nat → Option SitemapDoc)
    (rng : List Nat) (fs fs1 : FS) (c1 : Nat)
    (hfetch : ∀ i ∈ rng, (downloadResult (attempts i) MAX_ATTEMPTS 0).isSome = true)
    (h1 : build_url_index attempts rng fs = some (fs1, c1))
    (h2 : fs1.indexFile.isSome = true) :
    build_url_index attempts rng fs1 = some (fs1, 0) := by
  have hss : ∀ i ∈ rng, ((fs1.sitemaps i).isSome) = true := by
    unfold build_url_index at h1
    by_cases hall : are_all_sitemaps_downloaded rng fs = true
    · have hmem : ∀ i ∈ rng, ((fs.sitemaps i).isSome) = true := List.all_eq_true.mp hall
      rw [hall, if_pos rfl] at h1
      cases hidx : fs.indexFile with
      | none =>
        rw [hidx] at h1
        simp only [] at h1
        cases hw : writeLines ((rng.map (fun i => extractFile (fs.sitemaps i))).flatten) with
        | none =>
          rw [hw] at h1
          simp at h1
        | some s =>
          rw [hw] at h1
          simp only [Option.map_some', Option.some.injEq, Prod.mk.injEq] at h1
          rw [← h1.1]
          exact hmem
      | some s0 =>
        rw [hidx] at h1
        simp only [Option.some.injEq, Prod.mk.injEq] at h1
        rw [← h1.1]
        exact hmem
    · rw [if_neg hall] at h1
      simp only [] at h1
      have hpresent := buildLoop_all_present attempts rng fs hfetch
      by_cases he : (buildLoop attempts rng fs).2.1.isEmpty = true
      · rw [if_pos he] at h1
        simp only [Option.some.injEq, Prod.mk.injEq] at h1
        rw [← h1.1]
        exact hpresent
      · rw [if_neg he] at h1
        cases hw : writeLines ((buildLoop attempts rng fs).2.1) with
        | none =>
          rw [hw] at h1
          simp at h1
        | some s =>
          rw [hw] at h1
          simp only [Option.map_some', Option.some.injEq, Prod.mk.injEq] at h1
          rw [← h1.1]
          exact hpresent
  have hall1 : are_all_sitemaps_downloaded rng fs1 = true := List.all_eq_true.mpr hss
  obtain ⟨s, hs⟩ := Option.isSome_iff_exists.mp h2
  unfold build_url_index
  rw [hall1, if_pos rfl, hs]

/-- C2 witness: after a first run that downloads sitemap 1 and writes
the index, the second run is a no-op with zero downloads. -/
theorem C2_witness :
    build_url_index goodAttempts [1]
        { FS.writeSitemap fsEmpty 1 docA with indexFile := some "https://cinego.tv/movie/a\n" }
      = some ({ FS.writeSitemap fsEmpty 1 docA with indexFile := some "https://cinego.tv/movie/a\n" }, 0) :=
  C2_second_run_noop goodAttempts [1] fsEmpty _ 1 (by decide) rfl rfl

end Cinego
